/-
Verification of the Rose voice assistant core.

Embedded source:
  main.py   - startup, the intent chain (lines 55-117) and the main loop
              with its KeyboardInterrupt / Exception handlers (lines 45-131)
  ollama.py - OllamaHandler: ask, clear_history, the history cap and the
              prompt construction (_format_messages)

External collaborators (speech service, system clock, the ollama
subprocess) are modelled as opaque inputs: the clock as two preformatted
strings, the subprocess as a function from the composed prompt to an
abstract outcome (success with stdout, nonzero exit, timeout, or another
raised exception).  Python exceptions are explicit values; a turn of the
loop is a total function from the turn inputs to the spoken replies, the
updated handler state and a break flag.
-/
import Mathlib

set_option maxRecDepth 8000

/-- A single quote character, used to build the source string literals. -/
def apostrophe : String := String.singleton (Char.ofNat 39)

/-- Substring test on character lists: does the second list occur
contiguously anywhere in the first?  Models the Python operator in. -/
def containsSub : List Char → List Char → Bool
  | [], needle => needle.isEmpty
  | h :: t, needle => needle.isPrefixOf (h :: t) || containsSub t needle

/-- Python s2 in s1, as a Bool on strings. -/
def strContains (haystack needle : String) : Bool :=
  containsSub haystack.data needle.data

/-- The action selected by the intent chain of main.py lines 55-117.
One constructor per elif branch, plus the final else (AI delegation or
echo). -/
inductive RoseAction where
  | heyRose | helloHi | timeA | dateA | statusA | thanksA | clearHistA
  | checkUpdatesA | updateRoseA | versionA | exitA | aiDefault
deriving DecidableEq

/-- Trigger literals of main.py, in source order. -/
def tHeyRose : String := "hey rose"
def tHelloRose : String := "hello rose"
def tHello : String := "hello"
def tHi : String := "hi"
def tWhatTime : String := "what time"
def tTellTime : String := "tell me the time"
def tWhatDay : String := "what day"
def tWhatsDate : String := "what" ++ apostrophe ++ "s the date"
def tHowAreYou : String := "how are you"
def tThankYou : String := "thank you"
def tThanks : String := "thanks"
def tClearHistory : String := "clear history"
def tResetConversation : String := "reset conversation"
def tCheckForUpdates : String := "check for updates"
def tCheckUpdates : String := "check updates"
def tUpdateRose : String := "update rose"
def tUpdateYourself : String := "update yourself"
def tWhatVersion : String := "what version"
def tYourVersion : String := "your version"
def tExit : String := "exit"
def tGoodbye : String := "goodbye"
def tShutDown : String := "shut down"

/-- The intent chain of main.py lines 55-117, restricted to the selection
of the branch: each condition is the source disjunction of substring
tests, in source order, and the final else selects the AI delegation
default. -/
def matchIntent (command : String) : RoseAction :=
  if strContains command tHeyRose || strContains command tHelloRose then RoseAction.heyRose
  else if strContains command tHello || strContains command tHi then RoseAction.helloHi
  else if strContains command tWhatTime || strContains command tTellTime then RoseAction.timeA
  else if strContains command tWhatDay || strContains command tWhatsDate then RoseAction.dateA
  else if strContains command tHowAreYou then RoseAction.statusA
  else if strContains command tThankYou || strContains command tThanks then RoseAction.thanksA
  else if strContains command tClearHistory || strContains command tResetConversation then RoseAction.clearHistA
  else if strContains command tCheckForUpdates || strContains command tCheckUpdates then RoseAction.checkUpdatesA
  else if strContains command tUpdateRose || strContains command tUpdateYourself then RoseAction.updateRoseA
  else if strContains command tWhatVersion || strContains command tYourVersion then RoseAction.versionA
  else if strContains command tExit || (strContains command tGoodbye || strContains command tShutDown) then RoseAction.exitA
  else RoseAction.aiDefault

/-- The intent chain viewed as an ordered rule table: trigger sets with
their actions, in the declaration order of main.py. -/
def intentRules : List (List String × RoseAction) :=
  [ ([tHeyRose, tHelloRose], RoseAction.heyRose),
    ([tHello, tHi], RoseAction.helloHi),
    ([tWhatTime, tTellTime], RoseAction.timeA),
    ([tWhatDay, tWhatsDate], RoseAction.dateA),
    ([tHowAreYou], RoseAction.statusA),
    ([tThankYou, tThanks], RoseAction.thanksA),
    ([tClearHistory, tResetConversation], RoseAction.clearHistA),
    ([tCheckForUpdates, tCheckUpdates], RoseAction.checkUpdatesA),
    ([tUpdateRose, tUpdateYourself], RoseAction.updateRoseA),
    ([tWhatVersion, tYourVersion], RoseAction.versionA),
    ([tExit, tGoodbye, tShutDown], RoseAction.exitA) ]

/-- A rule fires when one of its triggers occurs in the utterance. -/
def ruleMatches (u : String) (r : List String × RoseAction) : Bool :=
  r.1.any (fun t => strContains u t)

/-- Out-of-range default for indexing the rule table: an empty trigger
set that can never fire. -/
def noRule : List String × RoseAction :=
  ([], RoseAction.aiDefault)

/-- First-match evaluation of an ordered rule table, falling through to
the AI delegation default. -/
def tableMatch (u : String) : List (List String × RoseAction) → RoseAction
  | [] => RoseAction.aiDefault
  | r :: rest => if ruleMatches u r then r.2 else tableMatch u rest

/-- A role-tagged conversation message, as the Python dicts with keys
role and content. -/
structure Msg where
  role : String
  content : String
deriving DecidableEq

def roleSystem : String := "system"
def roleUser : String := "user"
def roleAssistant : String := "assistant"

/-- Outcome of one ollama run subprocess call, abstracting
subprocess.run of ollama.py lines 150-155: normal completion with
stdout, a nonzero return code with stderr, subprocess.TimeoutExpired, or
any other raised exception. -/
inductive ModelOutcome where
  | ok (stdout : String)
  | nonzeroExit (stderr : String)
  | timeout
  | exn (message : String)
deriving DecidableEq

/-- State of OllamaHandler (ollama.py lines 39-66): model name,
conversation history, the history cap, the system prompt, and the
availability flag computed by the _check_ollama probe. -/
structure OllamaHandler where
  model : String
  conversation_history : List Msg
  max_history : Nat
  system_prompt : String
  available : Bool
deriving DecidableEq

/-- The system prompt literal of ollama.py lines 51-63. -/
def systemPrompt : String :=
  "You are ROSE (Raspberry Operated Speech Engine), a voice-activated cybersecurity assistant.\n\nKeep responses BRIEF (2-3 sentences) since they" ++ apostrophe ++ "ll be spoken aloud. Only expand if asked.\n\nYou help with:\n- Security concepts and vulnerabilities\n- Network security and penetration testing\n- Linux security and hardening\n- Security tools (nmap, wireshark, metasploit)\n- Code security review\n- CVE explanations\n\n"

/-- OllamaHandler.__init__ (ollama.py lines 39-66): empty history, cap 2,
the fixed system prompt; the availability flag is the result of the
_check_ollama environment probe, taken here as a parameter. -/
def initHandler (model : String) (available : Bool) : OllamaHandler :=
  OllamaHandler.mk model [] 2 systemPrompt available

/-- OllamaHandler.is_available (ollama.py lines 105-107). -/
def is_available (h : OllamaHandler) : Bool :=
  h.available

/-- OllamaHandler.clear_history (ollama.py lines 204-207). -/
def clear_history (h : OllamaHandler) : OllamaHandler :=
  OllamaHandler.mk h.model [] h.max_history h.system_prompt h.available

/-- The brevity reminder appended to the user message when brief is true
(ollama.py line 139). -/
def briefSuffix : String :=
  "\n\n(Keep response brief - 2-3 sentences for voice output)"

/-- The reassignment of user_message in ollama.py lines 138-139. -/
def briefed (user_message : String) (brief : Bool) : String :=
  if brief then user_message ++ briefSuffix else user_message

/-- Message list composed in ollama.py lines 125-144: the system prompt,
the rolling history, then the current user message. -/
def buildMessages (h : OllamaHandler) (user_message : String) : List Msg :=
  Msg.mk roleSystem h.system_prompt :: (h.conversation_history ++ [Msg.mk roleUser user_message])

/-- The prompt part list of _format_messages (ollama.py lines 186-201):
one labelled line block per known role, unknown roles contribute
nothing. -/
def formatParts : List Msg → List String
  | [] => []
  | m :: t =>
    if m.role = roleSystem then ("System: " ++ m.content ++ "\n") :: formatParts t
    else if m.role = roleUser then ("User: " ++ m.content ++ "\n") :: formatParts t
    else if m.role = roleAssistant then ("Assistant: " ++ m.content ++ "\n") :: formatParts t
    else formatParts t

/-- OllamaHandler._format_messages (ollama.py lines 186-202): the parts
plus a final Assistant: tag, joined with newlines. -/
def formatMessages (messages : List Msg) : String :=
  String.intercalate ("\n") (formatParts messages ++ ["Assistant:"])

/-- The prompt handed to the ollama subprocess for a given ask call
(ollama.py lines 123-147). -/
def askPrompt (h : OllamaHandler) (user_message : String) (brief : Bool) : String :=
  formatMessages (buildMessages h (briefed user_message brief))

/-- Python negative-index slicing l[-k:], used in ollama.py line 175.
For k = 0 Python reads it as l[0:], the whole list. -/
def pyLastSlice (l : List Msg) (k : Nat) : List Msg :=
  if k = 0 then l else l.drop (l.length - k)

/-- The history cap of ollama.py lines 173-175: slice to the last
max_history * 2 entries only when the length exceeds that bound. -/
def applyCap (l : List Msg) (k : Nat) : List Msg :=
  if l.length > k then pyLastSlice l k else l

/-- Fixed reply strings of OllamaHandler.ask. -/
def unavailableReply : String :=
  "AI is not available. Please install Ollama and download a model."
def troubleReply : String :=
  "I" ++ apostrophe ++ "m having trouble thinking right now. Please try again."
def slowReply : String :=
  "Sorry, I" ++ apostrophe ++ "m thinking too slowly. Try asking something simpler."
def wrongReply : String :=
  "Something went wrong with my AI processing."

/-- OllamaHandler.ask (ollama.py lines 109-184).  The run parameter is
the subprocess behaviour: the outcome of ollama run on the composed
prompt.  Unavailability and every failure outcome return an apologetic
string with the handler unchanged; on success the response is stripped,
both entries are appended and the history cap is applied. -/
def ask (h : OllamaHandler) (user_message : String) (brief : Bool)
    (run : String → ModelOutcome) : String × OllamaHandler :=
  if is_available h = false then
    (unavailableReply, h)
  else
    match run (askPrompt h user_message brief) with
    | ModelOutcome.ok stdout =>
        (stdout.trim,
          OllamaHandler.mk h.model
            (applyCap
              (h.conversation_history
                ++ [Msg.mk roleUser (briefed user_message brief),
                    Msg.mk roleAssistant stdout.trim])
              (h.max_history * 2))
            h.max_history h.system_prompt h.available)
    | ModelOutcome.nonzeroExit _ => (troubleReply, h)
    | ModelOutcome.timeout => (slowReply, h)
    | ModelOutcome.exn _ => (wrongReply, h)

/-- A Python exception value, as far as the loop distinguishes them:
KeyboardInterrupt, the NameError raised by a reference to an undefined
name, or any other exception. -/
inductive PyExn where
  | keyboardInterrupt
  | nameError (name : String)
  | other (message : String)
deriving DecidableEq

/-- The undefined global referenced by the update intents of main.py. -/
def updaterName : String := "updater"

/-- Turn environment: the two clock strings formatted by
datetime.now().strftime in main.py lines 62-68, and the subprocess
behaviour for a possible ask call. -/
structure Env where
  timeStr : String
  dateStr : String
  modelRun : String → ModelOutcome

/-- Fixed reply strings of the main loop (main.py lines 55-131). -/
def heyRoseReply : String := "Yes? How can I help you?"
def helloReply : String := "Hello! I" ++ apostrophe ++ "m here and listening."
def timeReply (t : String) : String := "The time is " ++ t ++ "."
def dateReply (d : String) : String := "Today is " ++ d ++ "."
def statusReply : String := "I" ++ apostrophe ++ "m functioning optimally. All systems nominal."
def thanksReply : String := "You" ++ apostrophe ++ "re welcome!"
def clearedReply : String := "Conversation history cleared."
def aiNotAvailableReply : String := "AI is not available."
def checkingReply : String := "Checking for updates..."
def updatingReply : String := "Starting update process. Creating backup..."
def shutdownReply : String := "Understood. Rose shutting down. Goodbye."
def thinkingReply : String := "Thinking..."
def echoReply (command : String) : String :=
  "I heard: " ++ command ++ ". I" ++ apostrophe ++ "m still learning new commands."
def interruptReply : String := "Manual interrupt received. Going offline."
def errorReply : String := "An error occurred. Please check the console."

/-- Result of executing the matched branch of main.py lines 55-117:
replies spoken so far, the AI handler state, whether the branch executed
a break, and the exception the branch raised, if any.  The three update
intents reference the undefined global updater (main.py lines 86, 94 and
102), so they raise NameError at the point of use, after any reply
already spoken by the branch. -/
structure DispatchOut where
  spoken : List String
  ai : OllamaHandler
  breaks : Bool
  exn : Option PyExn
deriving DecidableEq

/-- The dispatch of one nonempty command (main.py lines 55-117): the
intent chain selects a branch and the branch executes. -/
def dispatch (ai : OllamaHandler) (command : String) (env : Env) : DispatchOut :=
  match matchIntent command with
  | RoseAction.heyRose => DispatchOut.mk [heyRoseReply] ai false none
  | RoseAction.helloHi => DispatchOut.mk [helloReply] ai false none
  | RoseAction.timeA => DispatchOut.mk [timeReply env.timeStr] ai false none
  | RoseAction.dateA => DispatchOut.mk [dateReply env.dateStr] ai false none
  | RoseAction.statusA => DispatchOut.mk [statusReply] ai false none
  | RoseAction.thanksA => DispatchOut.mk [thanksReply] ai false none
  | RoseAction.clearHistA =>
      if is_available ai then
        DispatchOut.mk [clearedReply] (clear_history ai) false none
      else
        DispatchOut.mk [aiNotAvailableReply] ai false none
  | RoseAction.checkUpdatesA =>
      DispatchOut.mk [checkingReply] ai false (some (PyExn.nameError updaterName))
  | RoseAction.updateRoseA =>
      DispatchOut.mk [updatingReply] ai false (some (PyExn.nameError updaterName))
  | RoseAction.versionA =>
      DispatchOut.mk [] ai false (some (PyExn.nameError updaterName))
  | RoseAction.exitA => DispatchOut.mk [shutdownReply] ai true none
  | RoseAction.aiDefault =>
      if is_available ai then
        DispatchOut.mk [thinkingReply, (ask ai command true env.modelRun).1]
          (ask ai command true env.modelRun).2 false none
      else
        DispatchOut.mk [echoReply command] ai false none

/-- Result of one iteration of the while body (main.py lines 45-131). -/
structure TurnOut where
  spoken : List String
  ai : OllamaHandler
  breaks : Bool
deriving DecidableEq

/-- One iteration of the main loop (main.py lines 45-131).  The ev input
is the outcome of the listening phase: a recognized command, or an
exception raised inside the try block before dispatch.  An empty command
is skipped.  The two except clauses translate any KeyboardInterrupt into
the interrupt acknowledgment plus a break, and any other exception into
the generic apology with the loop continuing. -/
def runTurn (ai : OllamaHandler) (ev : Except PyExn String) (env : Env) : TurnOut :=
  match ev with
  | Except.error PyExn.keyboardInterrupt => TurnOut.mk [interruptReply] ai true
  | Except.error _ => TurnOut.mk [errorReply] ai false
  | Except.ok command =>
    if command = "" then TurnOut.mk [] ai false
    else
      match (dispatch ai command env).exn with
      | none =>
          TurnOut.mk (dispatch ai command env).spoken
            (dispatch ai command env).ai (dispatch ai command env).breaks
      | some PyExn.keyboardInterrupt =>
          TurnOut.mk ((dispatch ai command env).spoken ++ [interruptReply])
            (dispatch ai command env).ai true
      | some _ =>
          TurnOut.mk ((dispatch ai command env).spoken ++ [errorReply])
            (dispatch ai command env).ai false

/-- A sequence of successful question and answer exchanges through ask,
each with brief true as the main loop calls it: the harness for the
history FIFO property. -/
def askRun (h : OllamaHandler) (xs : List (String × String)) : OllamaHandler :=
  xs.foldl (fun acc qr => (ask acc qr.1 true (fun _ => ModelOutcome.ok qr.2)).2) h

/-- The stored message pair of one successful exchange: the suffixed user
message and the stripped response. -/
def exchangeMsgs : List (String × String) → List Msg
  | [] => []
  | (q, r) :: t =>
      Msg.mk roleUser (q ++ briefSuffix) :: Msg.mk roleAssistant r.trim :: exchangeMsgs t

/-- The last k entries of a list (all of it when it is shorter). -/
def takeLast (l : List Msg) (k : Nat) : List Msg :=
  l.drop (l.length - k)

/-- Concrete objects used to instantiate the theorems below. -/
def modelName : String := "qwen2.5:0.5b"
def sampleAI : OllamaHandler := initHandler modelName true
def sampleAIOff : OllamaHandler := initHandler modelName false
def sampleAnswer : String := "A parameterized query avoids it."
def sampleErr : String := "boom"
def sampleRun : String → ModelOutcome := fun _ => ModelOutcome.ok sampleAnswer
def sampleTime : String := "07:30 PM"
def sampleDate : String := "Sunday, October 12, 2025"
def sampleEnv : Env := Env.mk sampleTime sampleDate sampleRun
def uttTime : String := "what time is it"
def uttExit : String := "exit"
def uttVersion : String := "what version"
def uttCheck : String := "check for updates"
def uttReset : String := "reset conversation"
def uttSql : String := "explain sql injection"
def sampleQuestion : String := "how do i secure ssh"
def sampleExchanges : List (String × String) :=
  [("q one", "a one"), ("q two", "a two"), ("q three", "a three")]

/-- The intent chain equals first-match evaluation of the rule table. -/
theorem matchIntent_eq_tableMatch (u : String) :
    matchIntent u = tableMatch u intentRules := by
  simp [matchIntent, tableMatch, intentRules, ruleMatches,
    List.any_cons, List.any_nil, Bool.or_false]

/-- Table evaluation is selection of the first matching rule. -/
theorem tableMatch_eq_find (u : String) :
    ∀ l : List (List String × RoseAction),
      tableMatch u l
        = ((l.find? (fun r => ruleMatches u r)).map Prod.snd).getD RoseAction.aiDefault
  | [] => by simp [tableMatch, List.find?]
  | r :: rest => by
      by_cases h : ruleMatches u r = true
      · simp [tableMatch, List.find?, h]
      · simp only [Bool.not_eq_true] at h
        simp [tableMatch, List.find?, h, tableMatch_eq_find u rest]

/-- A predicate true at index i and false before it makes find? return
the element at i. -/
theorem find?_first {α : Type} (d : α) (p : α → Bool) :
    ∀ (l : List α) (i : Nat), i < l.length →
      p (l.getD i d) = true →
      (∀ j, j < i → p (l.getD j d) = false) →
      l.find? p = some (l.getD i d)
  | [], i, hi, _, _ => by simp at hi
  | a :: l, 0, _, hp, _ => by
      simp only [List.getD_cons_zero] at hp ⊢
      simp [List.find?, hp]
  | a :: l, i + 1, hi, hp, hmin => by
      have ha : p a = false := by
        have h0 := hmin 0 (Nat.succ_pos i)
        simpa using h0
      have tail := find?_first d p l i (Nat.lt_of_succ_lt_succ hi)
        (by simpa using hp)
        (fun j hj => by
          have := hmin (j + 1) (Nat.succ_lt_succ hj)
          simpa using this)
      simp [List.find?, ha, List.getD_cons_succ, tail]

/-- C1: for every nonempty utterance, the action selected by the intent
chain is that of the first rule in declaration order whose trigger set
has a member occurring anywhere in the utterance, no later matching rule
being consulted; when no rule matches, the AI delegation default is
selected. -/
theorem intent_first_match_wins (u : String) (hu : u ≠ "") :
    (∀ i : Nat, i < intentRules.length →
        ruleMatches u (intentRules.getD i noRule) = true →
        (∀ j, j < i → ruleMatches u (intentRules.getD j noRule) = false) →
        matchIntent u = (intentRules.getD i noRule).2)
    ∧ ((∀ r ∈ intentRules, ruleMatches u r = false) →
        matchIntent u = RoseAction.aiDefault) := by
  constructor
  · intro i hi hp hmin
    have hfind := find?_first noRule (fun r => ruleMatches u r) intentRules i hi hp hmin
    rw [matchIntent_eq_tableMatch, tableMatch_eq_find, hfind]
    rfl
  · intro hnone
    have hfind : intentRules.find? (fun r => ruleMatches u r) = none := by
      rw [List.find?_eq_none]
      intro x hx
      simp [hnone x hx]
    rw [matchIntent_eq_tableMatch, tableMatch_eq_find, hfind]
    rfl

/-- Witness for C1: on the utterance what time is it, the rule at index 2
is the first match and its action is selected. -/
theorem intent_first_match_wins_w :
    matchIntent uttTime = (intentRules.getD 2 noRule).2 :=
  (intent_first_match_wins uttTime (by decide)).1 2 (by decide) (by decide)
    (by decide)

/-- C3: a turn of the loop sets the break flag only when the listening
phase raised KeyboardInterrupt or the utterance reached the exit rule;
no other per-turn outcome ends the loop. -/
theorem loop_breaks_only_exit_or_interrupt :
    ∀ (ai : OllamaHandler) (ev : Except PyExn String) (env : Env),
      (runTurn ai ev env).breaks = true →
      ev = Except.error PyExn.keyboardInterrupt
      ∨ ∃ c, ev = Except.ok c ∧ matchIntent c = RoseAction.exitA := by
  intro ai ev env hb
  cases ev with
  | error e =>
      cases e with
      | keyboardInterrupt => exact Or.inl rfl
      | nameError n => simp [runTurn] at hb
      | other m => simp [runTurn] at hb
  | ok c =>
      by_cases hc : c = ""
      · rw [hc] at hb
        simp [runTurn] at hb
      · cases hm : matchIntent c
        · simp [runTurn, dispatch, hm, hc] at hb
        · simp [runTurn, dispatch, hm, hc] at hb
        · simp [runTurn, dispatch, hm, hc] at hb
        · simp [runTurn, dispatch, hm, hc] at hb
        · simp [runTurn, dispatch, hm, hc] at hb
        · simp [runTurn, dispatch, hm, hc] at hb
        · simp [runTurn, dispatch, hm, hc, apply_ite] at hb
        · simp [runTurn, dispatch, hm, hc] at hb
        · simp [runTurn, dispatch, hm, hc] at hb
        · simp [runTurn, dispatch, hm, hc] at hb
        · exact Or.inr ⟨c, rfl, hm⟩
        · simp [runTurn, dispatch, hm, hc, apply_ite] at hb

/-- Witness for C3: the utterance exit yields a breaking turn, and the
theorem attributes it to the exit rule. -/
theorem loop_breaks_only_exit_or_interrupt_w :
    (Except.ok uttExit : Except PyExn String) = Except.error PyExn.keyboardInterrupt
    ∨ ∃ c, (Except.ok uttExit : Except PyExn String) = Except.ok c
        ∧ matchIntent c = RoseAction.exitA :=
  loop_breaks_only_exit_or_interrupt sampleAI (Except.ok uttExit) sampleEnv (by decide)

/-- C4: any exception other than KeyboardInterrupt raised during a turn
is caught: the loop speaks exactly one generic apology for it and does
not break, whether the exception arrived before dispatch or out of the
dispatched action. -/
theorem turn_error_recovery :
    ∀ (ai : OllamaHandler) (env : Env),
      (∀ e : PyExn, e ≠ PyExn.keyboardInterrupt →
          runTurn ai (Except.error e) env = TurnOut.mk [errorReply] ai false)
      ∧ (∀ (c : String) (e : PyExn), c ≠ "" →
          (dispatch ai c env).exn = some e → e ≠ PyExn.keyboardInterrupt →
          (runTurn ai (Except.ok c) env).breaks = false
          ∧ (runTurn ai (Except.ok c) env).spoken
              = (dispatch ai c env).spoken ++ [errorReply]
          ∧ List.count errorReply (runTurn ai (Except.ok c) env).spoken = 1) := by
  intro ai env
  constructor
  · intro e he
    cases e with
    | keyboardInterrupt => exact absurd rfl he
    | nameError n => simp [runTurn]
    | other m => simp [runTurn]
  · intro c e hc hexn hke
    cases hm : matchIntent c
    · simp [dispatch, hm] at hexn
    · simp [dispatch, hm] at hexn
    · simp [dispatch, hm] at hexn
    · simp [dispatch, hm] at hexn
    · simp [dispatch, hm] at hexn
    · simp [dispatch, hm] at hexn
    · simp [dispatch, hm, apply_ite] at hexn
    · refine ⟨?_, ?_, ?_⟩ <;> (simp [runTurn, dispatch, hm, hc]; try decide)
    · refine ⟨?_, ?_, ?_⟩ <;> (simp [runTurn, dispatch, hm, hc]; try decide)
    · refine ⟨?_, ?_, ?_⟩ <;> (simp [runTurn, dispatch, hm, hc]; try decide)
    · simp [dispatch, hm] at hexn
    · simp [dispatch, hm, apply_ite] at hexn

/-- Witness for C4: the utterance what version raises the updater
NameError; the turn continues and speaks one apology. -/
theorem turn_error_recovery_w :
    (runTurn sampleAI (Except.ok uttVersion) sampleEnv).breaks = false
    ∧ (runTurn sampleAI (Except.ok uttVersion) sampleEnv).spoken
        = (dispatch sampleAI uttVersion sampleEnv).spoken ++ [errorReply]
    ∧ List.count errorReply (runTurn sampleAI (Except.ok uttVersion) sampleEnv).spoken = 1 :=
  (turn_error_recovery sampleAI sampleEnv).2 uttVersion (PyExn.nameError updaterName)
    (by decide) (by decide) (by decide)

/-- C7: when the clear-history intent fires with the AI available, the
history becomes empty and the confirmation is spoken; when it fires with
the AI unavailable, the handler is untouched and the unavailable reply
is spoken. -/
theorem clear_history_turn :
    ∀ (ai : OllamaHandler) (c : String) (env : Env),
      matchIntent c = RoseAction.clearHistA →
      (ai.available = true →
        dispatch ai c env
          = DispatchOut.mk [clearedReply] (clear_history ai) false none
        ∧ (clear_history ai).conversation_history = [])
      ∧ (ai.available = false →
        dispatch ai c env = DispatchOut.mk [aiNotAvailableReply] ai false none) := by
  intro ai c env hm
  constructor
  · intro hav
    exact ⟨by simp [dispatch, hm, is_available, hav], rfl⟩
  · intro hav
    simp [dispatch, hm, is_available, hav]

/-- Witness for C7 at the utterance reset conversation, in both
availability states. -/
theorem clear_history_turn_w :
    (dispatch sampleAI uttReset sampleEnv
        = DispatchOut.mk [clearedReply] (clear_history sampleAI) false none
      ∧ (clear_history sampleAI).conversation_history = [])
    ∧ dispatch sampleAIOff uttReset sampleEnv
        = DispatchOut.mk [aiNotAvailableReply] sampleAIOff false none :=
  ⟨(clear_history_turn sampleAI uttReset sampleEnv (by decide)).1 (by decide),
   (clear_history_turn sampleAIOff uttReset sampleEnv (by decide)).2 (by decide)⟩

/-- C8: every utterance reaching the check-for-updates, update or version
intent raises the NameError for the undefined updater global at the
point of use, with the handler unchanged and no break, so these intents
never complete their described behaviour. -/
theorem updater_intents_raise :
    ∀ (ai : OllamaHandler) (c : String) (env : Env),
      matchIntent c = RoseAction.checkUpdatesA
      ∨ matchIntent c = RoseAction.updateRoseA
      ∨ matchIntent c = RoseAction.versionA →
      (dispatch ai c env).exn = some (PyExn.nameError updaterName)
      ∧ (dispatch ai c env).breaks = false
      ∧ (dispatch ai c env).ai = ai := by
  intro ai c env hm
  rcases hm with hm | hm | hm <;> simp [dispatch, hm]

/-- Witness for C8 at the utterance check for updates. -/
theorem updater_intents_raise_w :
    (dispatch sampleAI uttCheck sampleEnv).exn = some (PyExn.nameError updaterName)
    ∧ (dispatch sampleAI uttCheck sampleEnv).breaks = false
    ∧ (dispatch sampleAI uttCheck sampleEnv).ai = sampleAI :=
  updater_intents_raise sampleAI uttCheck sampleEnv (Or.inl (by decide))

/-- An unavailable handler returns the install prompt unchanged. -/
theorem ask_unavailable (h : OllamaHandler) (m : String) (b : Bool)
    (run : String → ModelOutcome) (hav : h.available = false) :
    ask h m b run = (unavailableReply, h) := by
  simp [ask, is_available, hav]

/-- A nonzero subprocess exit yields the trouble reply, handler
unchanged. -/
theorem ask_nonzero (h : OllamaHandler) (m : String) (b : Bool)
    (run : String → ModelOutcome) (s : String) (hav : h.available = true)
    (hrun : run (askPrompt h m b) = ModelOutcome.nonzeroExit s) :
    ask h m b run = (troubleReply, h) := by
  simp [ask, is_available, hav, hrun]

/-- A subprocess timeout yields the slow reply, handler unchanged. -/
theorem ask_timeout (h : OllamaHandler) (m : String) (b : Bool)
    (run : String → ModelOutcome) (hav : h.available = true)
    (hrun : run (askPrompt h m b) = ModelOutcome.timeout) :
    ask h m b run = (slowReply, h) := by
  simp [ask, is_available, hav, hrun]

/-- Any other exception in the subprocess call yields the wrong reply,
handler unchanged. -/
theorem ask_exn (h : OllamaHandler) (m : String) (b : Bool)
    (run : String → ModelOutcome) (e : String) (hav : h.available = true)
    (hrun : run (askPrompt h m b) = ModelOutcome.exn e) :
    ask h m b run = (wrongReply, h) := by
  simp [ask, is_available, hav, hrun]

/-- On success the updated handler carries the capped extended history
and every other field unchanged. -/
theorem ask_ok_snd (h : OllamaHandler) (m : String) (b : Bool)
    (run : String → ModelOutcome) (r : String) (hav : h.available = true)
    (hrun : run (askPrompt h m b) = ModelOutcome.ok r) :
    (ask h m b run).2
      = OllamaHandler.mk h.model
          (applyCap (h.conversation_history
              ++ [Msg.mk roleUser (briefed m b), Msg.mk roleAssistant r.trim])
            (h.max_history * 2))
          h.max_history h.system_prompt h.available := by
  simp [ask, is_available, hav, hrun]

/-- On success the returned string is the stripped stdout. -/
theorem ask_ok_fst (h : OllamaHandler) (m : String) (b : Bool)
    (run : String → ModelOutcome) (r : String) (hav : h.available = true)
    (hrun : run (askPrompt h m b) = ModelOutcome.ok r) :
    (ask h m b run).1 = r.trim := by
  simp [ask, is_available, hav, hrun]

/-- takeLast keeps a list no longer than the bound. -/
theorem takeLast_of_len_le (l : List Msg) (k : Nat) (h : l.length ≤ k) :
    takeLast l k = l := by
  simp [takeLast, Nat.sub_eq_zero_of_le h]

/-- takeLast through reversal. -/
theorem takeLast_eq_rev (l : List Msg) (k : Nat) :
    takeLast l k = (l.reverse.take k).reverse := by
  rw [List.take_reverse, List.reverse_reverse]
  rfl

/-- takeLast never exceeds its bound. -/
theorem length_takeLast_le (l : List Msg) (k : Nat) :
    (takeLast l k).length ≤ k := by
  simp [takeLast]
  omega

/-- Taking k of an appended list ignores anything of the right part
beyond k. -/
theorem take_append_take (b t : List Msg) (k : Nat) :
    (b ++ t.take k).take k = (b ++ t).take k := by
  rw [List.take_append_eq_append_take, List.take_append_eq_append_take,
    List.take_take, Nat.min_eq_left (Nat.sub_le k b.length)]

/-- Keeping the last k entries commutes with having already trimmed the
left part to its last k entries. -/
theorem takeLast_append_takeLast (a b : List Msg) (k : Nat) :
    takeLast (takeLast a k ++ b) k = takeLast (a ++ b) k := by
  simp only [takeLast_eq_rev, List.reverse_append, List.reverse_reverse]
  rw [take_append_take]

/-- For a positive bound the source cap equals takeLast. -/
theorem applyCap_eq_takeLast (l : List Msg) (k : Nat) (hk : 0 < k) :
    applyCap l k = takeLast l k := by
  unfold applyCap pyLastSlice takeLast
  by_cases h : l.length > k
  · rw [if_pos h, if_neg (by omega)]
  · rw [if_neg h]
    have h0 : l.length - k = 0 := by omega
    rw [h0, List.drop_zero]

theorem askRun_nil (h : OllamaHandler) : askRun h [] = h := rfl

theorem askRun_cons (h : OllamaHandler) (q r : String)
    (t : List (String × String)) :
    askRun h ((q, r) :: t)
      = askRun ((ask h q true (fun _ => ModelOutcome.ok r)).2) t := rfl

theorem exchangeMsgs_length : ∀ xs : List (String × String),
    (exchangeMsgs xs).length = 2 * xs.length
  | [] => rfl
  | (q, r) :: t => by
      simp [exchangeMsgs, exchangeMsgs_length t]
      omega

/-- Dropping twice j messages drops j exchanges. -/
theorem exchangeMsgs_drop : ∀ (j : Nat) (xs : List (String × String)),
    (exchangeMsgs xs).drop (2 * j) = exchangeMsgs (xs.drop j)
  | 0, xs => by simp
  | j + 1, [] => by simp [exchangeMsgs]
  | j + 1, (q, r) :: t => by
      have h2 : 2 * (j + 1) = 2 * j + 1 + 1 := by ring
      rw [exchangeMsgs, h2, List.drop_succ_cons, List.drop_succ_cons,
        exchangeMsgs_drop j t, List.drop_succ_cons]

/-- Running a list of successful exchanges leaves the last cap-many
stored messages: the rolling window over the initial history and all
appended pairs. -/
theorem askRun_history : ∀ (xs : List (String × String)) (mo : String)
    (hist : List Msg) (mh : Nat) (sp : String), 0 < mh →
    hist.length ≤ mh * 2 →
    (askRun (OllamaHandler.mk mo hist mh sp true) xs).conversation_history
      = takeLast (hist ++ exchangeMsgs xs) (mh * 2)
  | [], mo, hist, mh, sp, hk, hlen => by
      have he : exchangeMsgs [] = [] := rfl
      rw [askRun_nil, he, List.append_nil, takeLast_of_len_le _ _ hlen]
  | (q, r) :: t, mo, hist, mh, sp, hk, hlen => by
      have hstep : (ask (OllamaHandler.mk mo hist mh sp true) q true
            (fun _ => ModelOutcome.ok r)).2
          = OllamaHandler.mk mo
              (takeLast (hist ++ [Msg.mk roleUser (q ++ briefSuffix),
                  Msg.mk roleAssistant r.trim]) (mh * 2))
              mh sp true := by
        rw [ask_ok_snd _ q true (fun _ => ModelOutcome.ok r) r rfl rfl]
        rw [applyCap_eq_takeLast _ _ (by omega : 0 < mh * 2)]
        simp [briefed]
      rw [askRun_cons, hstep]
      rw [askRun_history t mo _ mh sp hk (length_takeLast_le _ _)]
      rw [takeLast_append_takeLast, List.append_assoc]
      rfl

/-- C2: a completed ask call leaves the history within the cap of
2 times max_history entries, and after max_history + 1 or more successful
exchanges from a fresh default handler the history is exactly the cap
and holds the stored messages of the most recent exchanges, oldest pairs
evicted first. -/
theorem history_capped_and_fifo :
    (∀ (h : OllamaHandler) (m : String) (b : Bool) (run : String → ModelOutcome),
        0 < h.max_history → h.conversation_history.length ≤ h.max_history * 2 →
        ((ask h m b run).2).conversation_history.length ≤ h.max_history * 2)
    ∧ (∀ (h : OllamaHandler) (xs : List (String × String)),
        h.available = true → h.max_history = 2 → h.conversation_history = [] →
        h.max_history + 1 ≤ xs.length →
        ((askRun h xs).conversation_history.length = h.max_history * 2
          ∧ (askRun h xs).conversation_history
              = exchangeMsgs (xs.drop (xs.length - h.max_history)))) := by
  constructor
  · intro h m b run hk hlen
    by_cases hav : h.available = true
    · cases hrun : run (askPrompt h m b) with
      | ok r =>
          rw [ask_ok_snd h m b run r hav hrun]
          simp [applyCap_eq_takeLast _ _ (by omega : 0 < h.max_history * 2),
            length_takeLast_le]
      | nonzeroExit s => rw [ask_nonzero h m b run s hav hrun]; exact hlen
      | timeout => rw [ask_timeout h m b run hav hrun]; exact hlen
      | exn e => rw [ask_exn h m b run e hav hrun]; exact hlen
    · have hav2 : h.available = false := by simpa using hav
      rw [ask_unavailable h m b run hav2]; exact hlen
  · intro h xs hav hmh hhist hlen
    obtain ⟨mo, hist, mh, sp, av⟩ := h
    have hav2 : av = true := hav
    have hmh2 : mh = 2 := hmh
    have hhist2 : hist = [] := hhist
    subst hav2; subst hmh2; subst hhist2
    have hxs : 3 ≤ xs.length := hlen
    have H := askRun_history xs mo [] 2 sp (by omega) (by simp)
    have hL := exchangeMsgs_length xs
    constructor
    · show (askRun (OllamaHandler.mk mo [] 2 sp true) xs).conversation_history.length
          = 2 * 2
      rw [H, List.nil_append]
      simp [takeLast]
      omega
    · show (askRun (OllamaHandler.mk mo [] 2 sp true) xs).conversation_history
          = exchangeMsgs (xs.drop (xs.length - 2))
      rw [H, List.nil_append]
      show (exchangeMsgs xs).drop ((exchangeMsgs xs).length - 2 * 2)
          = exchangeMsgs (xs.drop (xs.length - 2))
      rw [hL, show 2 * xs.length - 2 * 2 = 2 * (xs.length - 2) from by omega,
        exchangeMsgs_drop]

/-- Witness for C2: one capped call and a three-exchange run on the
default handler. -/
theorem history_capped_and_fifo_w :
    ((ask sampleAI sampleQuestion true sampleRun).2).conversation_history.length
        ≤ sampleAI.max_history * 2
    ∧ ((askRun sampleAI sampleExchanges).conversation_history.length
          = sampleAI.max_history * 2
        ∧ (askRun sampleAI sampleExchanges).conversation_history
            = exchangeMsgs (sampleExchanges.drop
                (sampleExchanges.length - sampleAI.max_history))) :=
  ⟨history_capped_and_fifo.1 sampleAI sampleQuestion true sampleRun
      (by decide) (by decide),
   history_capped_and_fifo.2 sampleAI sampleExchanges rfl rfl rfl (by decide)⟩

/-- C5: ask returns a string on every path, one fixed apologetic text per
failure class, and the four failure texts are pairwise distinct; no
exception reaches the caller, every outcome of the subprocess call is
translated to a returned string. -/
theorem ask_always_replies :
    (∀ (h : OllamaHandler) (m : String) (b : Bool) (run : String → ModelOutcome),
        h.available = false → (ask h m b run).1 = unavailableReply)
    ∧ (∀ (h : OllamaHandler) (m : String) (b : Bool) (run : String → ModelOutcome)
        (s : String), h.available = true →
        run (askPrompt h m b) = ModelOutcome.nonzeroExit s →
        (ask h m b run).1 = troubleReply)
    ∧ (∀ (h : OllamaHandler) (m : String) (b : Bool) (run : String → ModelOutcome),
        h.available = true → run (askPrompt h m b) = ModelOutcome.timeout →
        (ask h m b run).1 = slowReply)
    ∧ (∀ (h : OllamaHandler) (m : String) (b : Bool) (run : String → ModelOutcome)
        (e : String), h.available = true →
        run (askPrompt h m b) = ModelOutcome.exn e →
        (ask h m b run).1 = wrongReply)
    ∧ (∀ (h : OllamaHandler) (m : String) (b : Bool) (run : String → ModelOutcome)
        (r : String), h.available = true →
        run (askPrompt h m b) = ModelOutcome.ok r →
        (ask h m b run).1 = r.trim)
    ∧ (unavailableReply ≠ troubleReply ∧ unavailableReply ≠ slowReply
        ∧ unavailableReply ≠ wrongReply ∧ troubleReply ≠ slowReply
        ∧ troubleReply ≠ wrongReply ∧ slowReply ≠ wrongReply) := by
  refine ⟨?_, ?_, ?_, ?_, ?_, by decide⟩
  · intro h m b run hav
    rw [ask_unavailable h m b run hav]
  · intro h m b run s hav hrun
    rw [ask_nonzero h m b run s hav hrun]
  · intro h m b run hav hrun
    rw [ask_timeout h m b run hav hrun]
  · intro h m b run e hav hrun
    rw [ask_exn h m b run e hav hrun]
  · intro h m b run r hav hrun
    exact ask_ok_fst h m b run r hav hrun

/-- Witness for C5: the unavailable and timeout paths on concrete
handlers. -/
theorem ask_always_replies_w :
    (ask sampleAIOff sampleQuestion true sampleRun).1 = unavailableReply
    ∧ (ask sampleAI sampleQuestion true (fun _ => ModelOutcome.timeout)).1
        = slowReply :=
  ⟨ask_always_replies.1 sampleAIOff sampleQuestion true sampleRun rfl,
   ask_always_replies.2.2.1 sampleAI sampleQuestion true
     (fun _ => ModelOutcome.timeout) rfl rfl⟩

/-- C6: on an utterance matching no rule while the AI is available, the
turn speaks the thinking announcement then exactly the string returned
by ask on that utterance, and on a successful model response the history
is the old one plus one user and one assistant entry, before the cap. -/
theorem ai_delegation_turn :
    ∀ (ai : OllamaHandler) (c : String) (env : Env),
      c ≠ "" → matchIntent c = RoseAction.aiDefault → ai.available = true →
      (runTurn ai (Except.ok c) env
          = TurnOut.mk [thinkingReply, (ask ai c true env.modelRun).1]
              ((ask ai c true env.modelRun).2) false)
      ∧ (∀ r : String, env.modelRun (askPrompt ai c true) = ModelOutcome.ok r →
          ((ask ai c true env.modelRun).2).conversation_history
            = applyCap (ai.conversation_history
                ++ [Msg.mk roleUser (c ++ briefSuffix),
                    Msg.mk roleAssistant r.trim])
              (ai.max_history * 2)) := by
  intro ai c env hc hm hav
  constructor
  · simp [runTurn, dispatch, hm, hc, is_available, hav]
  · intro r hrun
    rw [ask_ok_snd ai c true env.modelRun r hav hrun]
    simp [briefed]

/-- Witness for C6 at the utterance explain sql injection with a
successful model response. -/
theorem ai_delegation_turn_w :
    (runTurn sampleAI (Except.ok uttSql) sampleEnv
        = TurnOut.mk [thinkingReply, (ask sampleAI uttSql true sampleEnv.modelRun).1]
            ((ask sampleAI uttSql true sampleEnv.modelRun).2) false)
    ∧ ((ask sampleAI uttSql true sampleEnv.modelRun).2).conversation_history
        = applyCap (sampleAI.conversation_history
            ++ [Msg.mk roleUser (uttSql ++ briefSuffix),
                Msg.mk roleAssistant sampleAnswer.trim])
          (sampleAI.max_history * 2) :=
  ⟨(ai_delegation_turn sampleAI uttSql sampleEnv (by decide) (by decide) rfl).1,
   (ai_delegation_turn sampleAI uttSql sampleEnv (by decide) (by decide) rfl).2
     sampleAnswer rfl⟩

/-- C9: every failure path of ask returns the handler untouched, history
included; entries are appended only when a model response was obtained. -/
theorem ask_failure_atomic :
    (∀ (h : OllamaHandler) (m : String) (b : Bool) (run : String → ModelOutcome),
        h.available = false → (ask h m b run).2 = h)
    ∧ (∀ (h : OllamaHandler) (m : String) (b : Bool) (run : String → ModelOutcome)
        (s : String), run (askPrompt h m b) = ModelOutcome.nonzeroExit s →
        (ask h m b run).2 = h)
    ∧ (∀ (h : OllamaHandler) (m : String) (b : Bool) (run : String → ModelOutcome),
        run (askPrompt h m b) = ModelOutcome.timeout → (ask h m b run).2 = h)
    ∧ (∀ (h : OllamaHandler) (m : String) (b : Bool) (run : String → ModelOutcome)
        (e : String), run (askPrompt h m b) = ModelOutcome.exn e →
        (ask h m b run).2 = h)
    ∧ (∀ (h : OllamaHandler) (m : String) (b : Bool) (run : String → ModelOutcome)
        (r : String), h.available = true →
        run (askPrompt h m b) = ModelOutcome.ok r →
        ((ask h m b run).2).conversation_history
          = applyCap (h.conversation_history
              ++ [Msg.mk roleUser (briefed m b), Msg.mk roleAssistant r.trim])
            (h.max_history * 2)) := by
  refine ⟨?_, ?_, ?_, ?_, ?_⟩
  · intro h m b run hav
    rw [ask_unavailable h m b run hav]
  · intro h m b run s hrun
    by_cases hav : h.available = true
    · rw [ask_nonzero h m b run s hav hrun]
    · rw [ask_unavailable h m b run (by simpa using hav)]
  · intro h m b run hrun
    by_cases hav : h.available = true
    · rw [ask_timeout h m b run hav hrun]
    · rw [ask_unavailable h m b run (by simpa using hav)]
  · intro h m b run e hrun
    by_cases hav : h.available = true
    · rw [ask_exn h m b run e hav hrun]
    · rw [ask_unavailable h m b run (by simpa using hav)]
  · intro h m b run r hav hrun
    rw [ask_ok_snd h m b run r hav hrun]

/-- Witness for C9: an internal exception and the unavailable path leave
the concrete handlers unchanged. -/
theorem ask_failure_atomic_w :
    (ask sampleAI sampleQuestion true (fun _ => ModelOutcome.exn sampleErr)).2
        = sampleAI
    ∧ (ask sampleAIOff sampleQuestion true sampleRun).2 = sampleAIOff :=
  ⟨ask_failure_atomic.2.2.2.1 sampleAI sampleQuestion true
      (fun _ => ModelOutcome.exn sampleErr) sampleErr rfl,
   ask_failure_atomic.1 sampleAIOff sampleQuestion true sampleRun rfl⟩

/-- C10: with brief true, ask behaves exactly as asking the suffixed text
without briefing: the stored user entry and the user message embedded in
the prompt handed to the model both carry the fixed brevity suffix, and
the suffixed text differs from the raw text. -/
theorem brief_suffix_applied :
    ∀ (h : OllamaHandler) (m : String) (run : String → ModelOutcome),
      (ask h m true run = ask h (m ++ briefSuffix) false run)
      ∧ (askPrompt h m true = askPrompt h (m ++ briefSuffix) false)
      ∧ (m ++ briefSuffix ≠ m)
      ∧ (h.available = true → ∀ r : String,
          run (askPrompt h m true) = ModelOutcome.ok r →
          ((ask h m true run).2).conversation_history
            = applyCap (h.conversation_history
                ++ [Msg.mk roleUser (m ++ briefSuffix),
                    Msg.mk roleAssistant r.trim])
              (h.max_history * 2)) := by
  intro h m run
  refine ⟨rfl, rfl, ?_, ?_⟩
  · intro heq
    have hlen := congrArg String.length heq
    rw [String.length_append] at hlen
    have hbs : 0 < briefSuffix.length := by decide
    omega
  · intro hav r hrun
    rw [ask_ok_snd h m true run r hav hrun]
    simp [briefed]

/-- Witness for C10: the suffixed entry is stored on a concrete
successful call. -/
theorem brief_suffix_applied_w :
    ((ask sampleAI sampleQuestion true sampleRun).2).conversation_history
      = applyCap (sampleAI.conversation_history
          ++ [Msg.mk roleUser (sampleQuestion ++ briefSuffix),
              Msg.mk roleAssistant sampleAnswer.trim])
        (sampleAI.max_history * 2) :=
  (brief_suffix_applied sampleAI sampleQuestion sampleRun).2.2.2 rfl
    sampleAnswer rfl
